import Mathlib

/-
  Verification development for the libaws S3/SQS REST client.

  The repository ships the public interface `src/libaws/include/libaws/s3connection.h`
  (the S3Connection facade: createBucket, listAllBuckets, deleteBucket, two listBucket
  overloads, two put overloads, plain and conditional get, del, head) together with an
  SQS test driver.  The implementation behind the facade (Signer, Request Builder,
  Transport, Response Parser, Pagination Cursor) is not part of the visible sources,
  so the operational behaviour below is modelled from the specification, faithful to
  the declarations of the header: operation-typed exceptions plus a distinct
  AWSConnectionException, the `aSize = -1` seek sentinel of the istream put overload,
  the marker/maxKeys pagination discipline, and the delimiter rollup of the five
  argument listBucket overload.

  Network effects are made explicit: every facade operation takes a `net` argument
  describing the outcome of the transport attempt (`none` = the endpoint is
  reachable, `some msg` = connection/timeout failure).  Construction faults are
  detected before the `net` argument is consulted, which embeds "before any network
  I/O, never retried".
-/

/-- Modelled from the spec: an object body is a byte sequence. -/
abbrev Bytes := List Nat

/-- Modelled from the spec: a stored object carries its bytes and content type. -/
structure Object where
  bytes : Bytes
  contentType : String
deriving DecidableEq

/-- Modelled from the spec: the ETag is an "opacity-preserving content fingerprint",
a deterministic pure function of the stored bytes. -/
def etagOf (bs : Bytes) : String :=
  toString (bs.foldl (fun acc b => (acc * 131 + b % 256 + 1) % 1000000007) 5381)

/-- Modelled from the spec: the service-side S3 state, a mapping from bucket names
to their key/object associations. -/
structure S3State where
  buckets : List (String × List (String × Object))
deriving DecidableEq

def S3State.findBucket (s : S3State) (b : String) : Option (List (String × Object)) :=
  (s.buckets.find? (fun pr => decide (pr.1 = b))).map Prod.snd

def lookupKey (objs : List (String × Object)) (k : String) : Option Object :=
  (objs.find? (fun pr => decide (pr.1 = k))).map Prod.snd

def insertObject (objs : List (String × Object)) (k : String) (o : Object) :
    List (String × Object) :=
  objs.filter (fun pr => !decide (pr.1 = k)) ++ [(k, o)]

def removeObject (objs : List (String × Object)) (k : String) : List (String × Object) :=
  objs.filter (fun pr => !decide (pr.1 = k))

def S3State.updateBucket (s : S3State) (b : String) (objs : List (String × Object)) :
    S3State :=
  ⟨s.buckets.map (fun pr => if pr.1 = b then (b, objs) else pr)⟩

/-- Modelled from the spec: construction faults are malformed inputs detected before
any network I/O (empty names, unseekable stream with unknown size, malformed
resource path). -/
inductive ConstructionError where
  | emptyName
  | sizeUnknownError
  | malformedPath
deriving DecidableEq

/-- Modelled from the spec: a service-reported error carries the service error code
and message. -/
structure ServiceError where
  code : String
  message : String
deriving DecidableEq

/-- Modelled from the spec: the cause carried by an operation-typed fault is either a
construction fault or a service fault. -/
inductive FaultCause where
  | construction (err : ConstructionError)
  | service (err : ServiceError)
deriving DecidableEq

/-- Modelled from the spec and the header's throw clauses: one fault variant per
operation (CreateBucketException, ..., PutException, GetException, DeleteException)
plus the distinct transport fault AWSConnectionException. -/
inductive Fault where
  | createBucketFault (cause : FaultCause)
  | listAllBucketsFault (cause : FaultCause)
  | deleteBucketFault (cause : FaultCause)
  | listBucketFault (cause : FaultCause)
  | putFault (cause : FaultCause)
  | getFault (cause : FaultCause)
  | deleteFault (cause : FaultCause)
  | headFault (cause : FaultCause)
  | createQueueFault (cause : FaultCause)
  | transportFault (message : String)
deriving DecidableEq

/-- Classifier naming the operation a fault is typed with; the transport fault forms
its own kind, orthogonal to the service-reported ones. -/
inductive OpKind where
  | createBucketOp
  | listAllBucketsOp
  | deleteBucketOp
  | listBucketOp
  | putOp
  | getOp
  | deleteOp
  | headOp
  | createQueueOp
  | transportOp
deriving DecidableEq

def Fault.opKindOf : Fault → OpKind
  | .createBucketFault _ => .createBucketOp
  | .listAllBucketsFault _ => .listAllBucketsOp
  | .deleteBucketFault _ => .deleteBucketOp
  | .listBucketFault _ => .listBucketOp
  | .putFault _ => .putOp
  | .getFault _ => .getOp
  | .deleteFault _ => .deleteOp
  | .headFault _ => .headOp
  | .createQueueFault _ => .createQueueOp
  | .transportFault _ => .transportOp

def Fault.isTransport : Fault → Bool
  | .transportFault _ => true
  | _ => false

def defaultRequestId : String := "00000000-request-id"

def noSuchBucketError : ServiceError :=
  ⟨"NoSuchBucket", "The specified bucket does not exist"⟩

def noSuchKeyError : ServiceError :=
  ⟨"NoSuchKey", "The specified key does not exist"⟩

def bucketExistsError : ServiceError :=
  ⟨"BucketAlreadyExists", "The requested bucket name is not available"⟩

/-- Modelled from the spec: bucket/queue/key names must be validated as non-empty by
the Request Builder. -/
def nameCheck (names : List String) : Option ConstructionError :=
  if names.any String.isEmpty then some ConstructionError.emptyName else none

/-- Modelled from the spec: the common skeleton of a facade operation.  Construction
faults are raised before the transport is consulted; a transport failure surfaces as
the distinct transport fault; a service error surfaces typed by the operation via
`opF`; no fault is swallowed. -/
def facadeOp {α : Type} (names : List String) (net : Option String)
    (step : Except ServiceError α) (opF : FaultCause → Fault) : Except Fault α :=
  match nameCheck names with
  | some c => .error (opF (.construction c))
  | none =>
    match net with
    | some e => .error (.transportFault e)
    | none => step.mapError (fun se => opF (.service se))

/- Typed results, one per operation (spec section 3, "Typed Result"). -/

structure CreateBucketResponse where
  requestId : String
deriving DecidableEq

structure ListAllBucketsResponse where
  requestId : String
  bucketNames : List String
deriving DecidableEq

structure DeleteBucketResponse where
  requestId : String
deriving DecidableEq

structure ListBucketResponse where
  requestId : String
  entries : List String
  commonPrefixes : List String
  marker : String
  nextMarker : Option String
  isTruncated : Bool
deriving DecidableEq

structure PutResponse where
  requestId : String
  etag : String
deriving DecidableEq

structure GetResponse where
  requestId : String
  bytes : Bytes
  contentType : String
  etag : String
deriving DecidableEq

/-- Modelled from the spec: a conditional get is parsed either as an ordinary
success or as an explicit "not modified" outcome that carries no body. -/
inductive GetOutcome where
  | success (response : GetResponse)
  | notModified (etag : String)
deriving DecidableEq

def GetOutcome.bodyOf : GetOutcome → Option Bytes
  | .success r => some r.bytes
  | .notModified _ => none

def GetOutcome.isNotModified : GetOutcome → Bool
  | .success _ => false
  | .notModified _ => true

structure DeleteResponse where
  requestId : String
deriving DecidableEq

structure HeadResponse where
  requestId : String
  contentLength : Nat
  contentType : String
  etag : String
deriving DecidableEq

/- Listing machinery (spec sections 4.4 and 4.5). -/

/-- Lexicographic strict order on character lists, by code point. -/
def lexLt : List Char → List Char → Bool
  | [], [] => false
  | [], _ :: _ => true
  | _ :: _, [] => false
  | x :: xs, y :: ys =>
    if x.toNat < y.toNat then true
    else if y.toNat < x.toNat then false
    else lexLt xs ys

/-- Modelled from the spec: keys are ordered lexicographically; `keyLt a b` holds
when `a` is lexically located before `b`. -/
def keyLt (a b : String) : Bool :=
  lexLt a.data b.data

def listIsPre : List Char → List Char → Bool
  | [], _ => true
  | _ :: _, [] => false
  | x :: xs, y :: ys => decide (x = y) && listIsPre xs ys

/-- Modelled from the spec: `isPre p s` holds when `p` is a prefix of `s`. -/
def isPre (p s : String) : Bool :=
  listIsPre p.data s.data

/-- Insert a key into a strictly sorted key list, keeping it strictly sorted and
duplicate-free. -/
def insertKey (k : String) : List String → List String
  | [] => [k]
  | x :: xs =>
    if keyLt k x then k :: x :: xs
    else if k = x then x :: xs
    else x :: insertKey k xs

/-- The lexicographically sorted key sequence of a bucket, as listed by the
service. -/
def sortedKeysOf (objs : List (String × Object)) : List String :=
  (objs.map Prod.fst).foldr insertKey []

/-- Modelled from the spec: a listing returns the keys that carry the requested
key prefix and are lexically located after the marker (empty marker = start). -/
def filterKeys (keys : List String) (pre marker : String) : List String :=
  keys.filter (fun k => isPre pre k && keyLt marker k)

/-- Modelled from the spec: the entries of one page of a listing without delimiter:
at most `maxKeys` matching keys. -/
def pageEntries (keys : List String) (pre marker : String) (maxKeys : Nat) : List String :=
  (filterKeys keys pre marker).take maxKeys

/-- Modelled from the spec: the truncation flag of one page: set exactly when more
matching keys remain beyond the returned page. -/
def pageIsTruncated (keys : List String) (pre marker : String) (maxKeys : Nat) : Bool :=
  decide (maxKeys < (filterKeys keys pre marker).length)

/-- Modelled from the spec: the documented maxKeys policy of this model: a
non-positive or unset maxKeys is treated as "use the service default" (1000). -/
def normMaxKeys (mk : Int) : Nat :=
  if mk ≤ 0 then 1000 else mk.toNat

/-- Modelled from the spec glossary: a key containing the delimiter after the
requested key prefix is rolled up into the common prefix running up to and
including the first delimiter occurrence; an empty delimiter means no rollup. -/
def rollupOf (pre delim key : String) : Option String :=
  if delim.isEmpty then none
  else
    match (key.drop pre.length).splitOn delim with
    | [] => none
    | [_] => none
    | first :: _ => some (pre ++ first ++ delim)

/-- Modelled from the spec: one page of a listing with delimiter.  Consecutive keys
sharing a rollup collapse into a single common-prefix element; entries and distinct
common prefixes jointly consume the `budget` of maxKeys; the page is truncated when
the budget is exhausted with keys remaining.  Returns (entries, common prefixes,
isTruncated). -/
def buildPageAux (pre delim : String) :
    List String → Nat → Option String → List String × List String × Bool
  | [], _, _ => ([], [], false)
  | k :: rest, budget, lastRoll =>
    match rollupOf pre delim k with
    | some cp =>
      if lastRoll = some cp then
        buildPageAux pre delim rest budget lastRoll
      else if budget = 0 then ([], [], true)
      else
        let t := buildPageAux pre delim rest (budget - 1) (some cp)
        (t.1, cp :: t.2.1, t.2.2)
    | none =>
      if budget = 0 then ([], [], true)
      else
        let t := buildPageAux pre delim rest (budget - 1) none
        (k :: t.1, t.2.1, t.2.2)

/-- Modelled from the spec: the pagination cursor for the overload without
delimiter.  Each step takes one page at the current marker, then advances the
marker to the last returned key, until the truncation flag is clear.  The fuel
argument bounds the number of round trips. -/
def paginateAux (keys : List String) (pre : String) (maxKeys : Nat) :
    Nat → String → List String
  | 0, _ => []
  | fuel + 1, marker =>
    if pageIsTruncated keys pre marker maxKeys then
      pageEntries keys pre marker maxKeys ++
        paginateAux keys pre maxKeys fuel
          ((pageEntries keys pre marker maxKeys).getLastD "")
    else
      pageEntries keys pre marker maxKeys

/-- All pages of a listing concatenated, starting from the empty marker. -/
def paginateAll (keys : List String) (pre : String) (maxKeys : Nat) : List String :=
  paginateAux keys pre maxKeys (keys.length + 1) ""

/- Service steps: the pure service-side transition of each operation
(spec sections 4.4 and 6). -/

def createBucketStep (s : S3State) (b : String) :
    Except ServiceError (S3State × CreateBucketResponse) :=
  match s.findBucket b with
  | some _ => .error bucketExistsError
  | none => .ok (⟨s.buckets ++ [(b, [])]⟩, ⟨defaultRequestId⟩)

def listAllBucketsStep (s : S3State) : Except ServiceError ListAllBucketsResponse :=
  .ok ⟨defaultRequestId, s.buckets.map Prod.fst⟩

def deleteBucketStep (s : S3State) (b : String) :
    Except ServiceError (S3State × DeleteBucketResponse) :=
  match s.findBucket b with
  | none => .error noSuchBucketError
  | some _ => .ok (⟨s.buckets.filter (fun pr => !decide (pr.1 = b))⟩, ⟨defaultRequestId⟩)

def putServiceStep (s : S3State) (b k : String) (data : Bytes) (ct : String) :
    Except ServiceError (S3State × PutResponse) :=
  match s.findBucket b with
  | none => .error noSuchBucketError
  | some objs =>
    .ok (s.updateBucket b (insertObject objs k ⟨data, ct⟩), ⟨defaultRequestId, etagOf data⟩)

def getStep (s : S3State) (b k : String) : Except ServiceError GetResponse :=
  match s.findBucket b with
  | none => .error noSuchBucketError
  | some objs =>
    match lookupKey objs k with
    | none => .error noSuchKeyError
    | some o => .ok ⟨defaultRequestId, o.bytes, o.contentType, etagOf o.bytes⟩

def getCondStep (s : S3State) (b k oldEtag : String) : Except ServiceError GetOutcome :=
  match s.findBucket b with
  | none => .error noSuchBucketError
  | some objs =>
    match lookupKey objs k with
    | none => .error noSuchKeyError
    | some o =>
      if etagOf o.bytes = oldEtag then .ok (.notModified oldEtag)
      else .ok (.success ⟨defaultRequestId, o.bytes, o.contentType, etagOf o.bytes⟩)

def delStep (s : S3State) (b k : String) :
    Except ServiceError (S3State × DeleteResponse) :=
  match s.findBucket b with
  | none => .error noSuchBucketError
  | some objs => .ok (s.updateBucket b (removeObject objs k), ⟨defaultRequestId⟩)

def headStep (s : S3State) (b k : String) : Except ServiceError HeadResponse :=
  match s.findBucket b with
  | none => .error noSuchBucketError
  | some objs =>
    match lookupKey objs k with
    | none => .error noSuchKeyError
    | some o => .ok ⟨defaultRequestId, o.bytes.length, o.contentType, etagOf o.bytes⟩

def listStep4 (s : S3State) (b pre marker : String) (aMaxKeys : Int) :
    Except ServiceError ListBucketResponse :=
  match s.findBucket b with
  | none => .error noSuchBucketError
  | some objs =>
    .ok ⟨defaultRequestId,
         pageEntries (sortedKeysOf objs) pre marker (normMaxKeys aMaxKeys), [], marker,
         none, pageIsTruncated (sortedKeysOf objs) pre marker (normMaxKeys aMaxKeys)⟩

def listStep5 (s : S3State) (b pre marker delim : String) (aMaxKeys : Int) :
    Except ServiceError ListBucketResponse :=
  match s.findBucket b with
  | none => .error noSuchBucketError
  | some objs =>
    let t := buildPageAux pre delim (filterKeys (sortedKeysOf objs) pre marker)
      (normMaxKeys aMaxKeys) none
    .ok ⟨defaultRequestId, t.1, t.2.1, marker,
         if t.2.2 && !t.2.1.isEmpty then some (t.2.1.getLastD "") else none, t.2.2⟩

/- The S3Connection facade operations (s3connection.h). -/

def S3Connection.createBucket (net : Option String) (s : S3State) (aBucketName : String) :
    Except Fault (S3State × CreateBucketResponse) :=
  facadeOp [aBucketName] net (createBucketStep s aBucketName) Fault.createBucketFault

def S3Connection.listAllBuckets (net : Option String) (s : S3State) :
    Except Fault ListAllBucketsResponse :=
  facadeOp [] net (listAllBucketsStep s) Fault.listAllBucketsFault

def S3Connection.deleteBucket (net : Option String) (s : S3State) (aBucketName : String) :
    Except Fault (S3State × DeleteBucketResponse) :=
  facadeOp [aBucketName] net (deleteBucketStep s aBucketName) Fault.deleteBucketFault

def S3Connection.listBucket4 (net : Option String) (s : S3State)
    (aBucketName aPre aMarker : String) (aMaxKeys : Int) :
    Except Fault ListBucketResponse :=
  facadeOp [aBucketName] net (listStep4 s aBucketName aPre aMarker aMaxKeys)
    Fault.listBucketFault

def S3Connection.listBucket5 (net : Option String) (s : S3State)
    (aBucketName aPre aMarker aDelimiter : String) (aMaxKeys : Int) :
    Except Fault ListBucketResponse :=
  facadeOp [aBucketName] net (listStep5 s aBucketName aPre aMarker aDelimiter aMaxKeys)
    Fault.listBucketFault

/-- Modelled from the header: the caller-supplied input stream of the istream put
overload, borrowed by the call; `seekable` records whether seek-to-end-then-rewind
is available on it. -/
structure IStream where
  bytes : Bytes
  seekable : Bool
deriving DecidableEq

/-- Modelled from the spec and the header: with the `aSize = -1` sentinel the body
size is determined by seeking to the end of the stream and rewinding, so it equals
the full stream length; an unseekable stream is a fatal construction error
(SizeUnknownError).  An explicit size is used as given. -/
def streamSizeCheck (data : IStream) (aSize : Int) : Except ConstructionError Nat :=
  if aSize = -1 then
    if data.seekable then .ok data.bytes.length
    else .error ConstructionError.sizeUnknownError
  else .ok aSize.toNat

def S3Connection.putStream (net : Option String) (s : S3State) (aBucketName aKey : String)
    (aData : IStream) (aContentType : String) (aSize : Int) :
    Except Fault (S3State × PutResponse) :=
  match nameCheck [aBucketName, aKey] with
  | some c => .error (Fault.putFault (.construction c))
  | none =>
    match streamSizeCheck aData aSize with
    | .error c => .error (Fault.putFault (.construction c))
    | .ok size =>
      match net with
      | some e => .error (Fault.transportFault e)
      | none =>
        (putServiceStep s aBucketName aKey (aData.bytes.take size) aContentType).mapError
          (fun se => Fault.putFault (.service se))

def S3Connection.putBuffer (net : Option String) (s : S3State) (aBucketName aKey : String)
    (aData : Bytes) (aContentType : String) (aSize : Nat) :
    Except Fault (S3State × PutResponse) :=
  facadeOp [aBucketName, aKey] net
    (putServiceStep s aBucketName aKey (aData.take aSize) aContentType) Fault.putFault

def S3Connection.get (net : Option String) (s : S3State) (aBucketName aKey : String) :
    Except Fault GetResponse :=
  facadeOp [aBucketName, aKey] net (getStep s aBucketName aKey) Fault.getFault

def S3Connection.getIfModified (net : Option String) (s : S3State)
    (aBucketName aKey aOldEtag : String) : Except Fault GetOutcome :=
  facadeOp [aBucketName, aKey] net (getCondStep s aBucketName aKey aOldEtag) Fault.getFault

def S3Connection.del (net : Option String) (s : S3State) (aBucketName aKey : String) :
    Except Fault (S3State × DeleteResponse) :=
  facadeOp [aBucketName, aKey] net (delStep s aBucketName aKey) Fault.deleteFault

def S3Connection.head (net : Option String) (s : S3State) (aBucketName aKey : String) :
    Except Fault HeadResponse :=
  facadeOp [aBucketName, aKey] net (headStep s aBucketName aKey) Fault.headFault

/- The SQS facade fragment exercised by the repository's test driver. -/

structure SQSState where
  queues : List String
deriving DecidableEq

structure CreateQueueResponse where
  requestId : String
deriving DecidableEq

def createQueueStep (s : SQSState) (q : String) :
    Except ServiceError (SQSState × CreateQueueResponse) :=
  .ok (⟨s.queues ++ [q]⟩, ⟨defaultRequestId⟩)

def SQSConnection.createQueue (net : Option String) (s : SQSState) (aQueueName : String) :
    Except Fault (SQSState × CreateQueueResponse) :=
  facadeOp [aQueueName] net (createQueueStep s aQueueName) Fault.createQueueFault

/- The Signer (spec section 4.1). -/

structure Credentials where
  accessKeyId : String
  secretAccessKey : String
deriving DecidableEq

def insertHeader (h : String × String) :
    List (String × String) → List (String × String)
  | [] => [h]
  | x :: xs => if keyLt h.1 x.1 then h :: x :: xs else x :: insertHeader h xs

def sortHeaders (hs : List (String × String)) : List (String × String) :=
  hs.foldr insertHeader []

/-- Modelled from the spec: the signing scheme canonicalizes the service-prefixed
headers. -/
def significantHeaders (hs : List (String × String)) : List (String × String) :=
  hs.filter (fun h => isPre "x-amz-" h.1)

/-- Modelled from the spec: the canonical string over method, timestamp, the sorted
significant headers and the resource path. -/
def canonicalString (method resourcePath timestamp : String)
    (hs : List (String × String)) : String :=
  method ++ "\n" ++ timestamp ++ "\n" ++
    String.join ((sortHeaders (significantHeaders hs)).map
      (fun h => h.1 ++ ":" ++ h.2 ++ "\n")) ++
    resourcePath

/-- Modelled from the spec: a keyed hash of the canonical string under the secret
key. -/
def keyedHash (secret msg : String) : Nat :=
  (secret ++ msg).data.foldl (fun acc c => (acc * 131 + c.toNat) % 1000000007) 7

/-- Modelled from the spec: a resource path is well formed when it is rooted. -/
def wellFormedPath (p : String) : Bool := isPre "/" p

/-- The signature token as a pure function of exactly the signing inputs. -/
def signatureToken (c : Credentials) (method resourcePath : String)
    (hs : List (String × String)) (timestamp : String) : String :=
  toString (keyedHash c.secretAccessKey (canonicalString method resourcePath timestamp hs))

/-- Modelled from the spec: `sign(credentials, method, resourcePath, headers,
timestamp)`; malformed resource paths are rejected before signing, well-formed
inputs cannot fail. -/
def sign (c : Credentials) (method resourcePath : String)
    (hs : List (String × String)) (timestamp : String) : Except ConstructionError String :=
  if wellFormedPath resourcePath then
    .ok (signatureToken c method resourcePath hs timestamp)
  else
    .error ConstructionError.malformedPath

/- Inversion helpers for the facade skeleton. -/

theorem facadeOp_ok {α : Type} {names : List String} {net : Option String}
    {step : Except ServiceError α} {opF : FaultCause → Fault} {a : α}
    (h : facadeOp names net step opF = .ok a) :
    nameCheck names = none ∧ net = none ∧ step = .ok a := by
  cases hnc : nameCheck names with
  | some c => simp [facadeOp, hnc] at h
  | none =>
    cases net with
    | some e => simp [facadeOp, hnc] at h
    | none =>
      cases hst : step with
      | error e => simp [facadeOp, hnc, hst, Except.mapError] at h
      | ok b =>
        simp [facadeOp, hnc, hst, Except.mapError] at h
        exact ⟨rfl, rfl, by rw [h]⟩

theorem facadeOp_error_kind {α : Type} {names : List String} {net : Option String}
    {step : Except ServiceError α} {opF : FaultCause → Fault} {f : Fault} {kd : OpKind}
    (h : facadeOp names net step opF = .error f)
    (hk : ∀ c, (opF c).opKindOf = kd) :
    f.opKindOf = kd ∨ f.opKindOf = OpKind.transportOp := by
  cases hnc : nameCheck names with
  | some c =>
    simp [facadeOp, hnc] at h
    subst h
    exact Or.inl (hk _)
  | none =>
    cases net with
    | some e =>
      simp [facadeOp, hnc] at h
      subst h
      exact Or.inr rfl
    | none =>
      cases hst : step with
      | error e =>
        simp [facadeOp, hnc, hst, Except.mapError] at h
        subst h
        exact Or.inl (hk _)
      | ok b => simp [facadeOp, hnc, hst, Except.mapError] at h

theorem putStream_error_kind {net : Option String} {s : S3State} {b k : String}
    {data : IStream} {ct : String} {aSize : Int} {f : Fault}
    (h : S3Connection.putStream net s b k data ct aSize = .error f) :
    f.opKindOf = OpKind.putOp ∨ f.opKindOf = OpKind.transportOp := by
  cases hnc : nameCheck [b, k] with
  | some c =>
    simp [S3Connection.putStream, hnc] at h
    subst h
    exact Or.inl rfl
  | none =>
    cases hsz : streamSizeCheck data aSize with
    | error c =>
      simp [S3Connection.putStream, hnc, hsz] at h
      subst h
      exact Or.inl rfl
    | ok size =>
      cases net with
      | some e =>
        simp [S3Connection.putStream, hnc, hsz] at h
        subst h
        exact Or.inr rfl
      | none =>
        cases hst : putServiceStep s b k (data.bytes.take size) ct with
        | error e =>
          simp [S3Connection.putStream, hnc, hsz, hst, Except.mapError] at h
          subst h
          exact Or.inl rfl
        | ok a => simp [S3Connection.putStream, hnc, hsz, hst, Except.mapError] at h

theorem nameCheck_of_mem {names : List String} (h : "" ∈ names) :
    nameCheck names = some ConstructionError.emptyName := by
  have hany : names.any String.isEmpty = true := List.any_eq_true.mpr ⟨"", h, rfl⟩
  simp [nameCheck, hany]

/-- C5: every Connection facade operation either returns its operation-specific
typed result or fails with the fault variant named for that operation (for example
createBucket with the create-bucket fault, get with the get fault); connectivity and
timeout failures surface as the distinct transport fault, orthogonal to the
service-reported operation faults; the facade never swallows a fault: every error
outcome of an operation is typed for that operation or is the transport fault. -/
theorem claim_C5 :
    (∀ (net : Option String) (s : S3State) (b : String) (f : Fault),
       S3Connection.createBucket net s b = .error f →
       f.opKindOf = OpKind.createBucketOp ∨ f.opKindOf = OpKind.transportOp) ∧
    (∀ (net : Option String) (s : S3State) (f : Fault),
       S3Connection.listAllBuckets net s = .error f →
       f.opKindOf = OpKind.listAllBucketsOp ∨ f.opKindOf = OpKind.transportOp) ∧
    (∀ (net : Option String) (s : S3State) (b : String) (f : Fault),
       S3Connection.deleteBucket net s b = .error f →
       f.opKindOf = OpKind.deleteBucketOp ∨ f.opKindOf = OpKind.transportOp) ∧
    (∀ (net : Option String) (s : S3State) (b pre marker : String) (mk : Int) (f : Fault),
       S3Connection.listBucket4 net s b pre marker mk = .error f →
       f.opKindOf = OpKind.listBucketOp ∨ f.opKindOf = OpKind.transportOp) ∧
    (∀ (net : Option String) (s : S3State) (b pre marker delim : String) (mk : Int)
       (f : Fault),
       S3Connection.listBucket5 net s b pre marker delim mk = .error f →
       f.opKindOf = OpKind.listBucketOp ∨ f.opKindOf = OpKind.transportOp) ∧
    (∀ (net : Option String) (s : S3State) (b k : String) (data : IStream) (ct : String)
       (sz : Int) (f : Fault),
       S3Connection.putStream net s b k data ct sz = .error f →
       f.opKindOf = OpKind.putOp ∨ f.opKindOf = OpKind.transportOp) ∧
    (∀ (net : Option String) (s : S3State) (b k : String) (data : Bytes) (ct : String)
       (sz : Nat) (f : Fault),
       S3Connection.putBuffer net s b k data ct sz = .error f →
       f.opKindOf = OpKind.putOp ∨ f.opKindOf = OpKind.transportOp) ∧
    (∀ (net : Option String) (s : S3State) (b k : String) (f : Fault),
       S3Connection.get net s b k = .error f →
       f.opKindOf = OpKind.getOp ∨ f.opKindOf = OpKind.transportOp) ∧
    (∀ (net : Option String) (s : S3State) (b k etg : String) (f : Fault),
       S3Connection.getIfModified net s b k etg = .error f →
       f.opKindOf = OpKind.getOp ∨ f.opKindOf = OpKind.transportOp) ∧
    (∀ (net : Option String) (s : S3State) (b k : String) (f : Fault),
       S3Connection.del net s b k = .error f →
       f.opKindOf = OpKind.deleteOp ∨ f.opKindOf = OpKind.transportOp) ∧
    (∀ (net : Option String) (s : S3State) (b k : String) (f : Fault),
       S3Connection.head net s b k = .error f →
       f.opKindOf = OpKind.headOp ∨ f.opKindOf = OpKind.transportOp) ∧
    (∀ (net : Option String) (s : SQSState) (q : String) (f : Fault),
       SQSConnection.createQueue net s q = .error f →
       f.opKindOf = OpKind.createQueueOp ∨ f.opKindOf = OpKind.transportOp) ∧
    (∀ e, (Fault.transportFault e).opKindOf = OpKind.transportOp) ∧
    (∀ cause, (Fault.createBucketFault cause).opKindOf ≠ OpKind.transportOp) ∧
    (∀ cause, (Fault.getFault cause).opKindOf ≠ OpKind.transportOp) := by
  refine ⟨?_, ?_, ?_, ?_, ?_, ?_, ?_, ?_, ?_, ?_, ?_, ?_, ?_, ?_, ?_⟩
  · exact fun net s b f h => facadeOp_error_kind h (fun c => rfl)
  · exact fun net s f h => facadeOp_error_kind h (fun c => rfl)
  · exact fun net s b f h => facadeOp_error_kind h (fun c => rfl)
  · exact fun net s b pre marker mk f h => facadeOp_error_kind h (fun c => rfl)
  · exact fun net s b pre marker delim mk f h => facadeOp_error_kind h (fun c => rfl)
  · exact fun net s b k data ct sz f h => putStream_error_kind h
  · exact fun net s b k data ct sz f h => facadeOp_error_kind h (fun c => rfl)
  · exact fun net s b k f h => facadeOp_error_kind h (fun c => rfl)
  · exact fun net s b k etg f h => facadeOp_error_kind h (fun c => rfl)
  · exact fun net s b k f h => facadeOp_error_kind h (fun c => rfl)
  · exact fun net s b k f h => facadeOp_error_kind h (fun c => rfl)
  · exact fun net s q f h => facadeOp_error_kind h (fun c => rfl)
  · exact fun e => rfl
  · intro cause
    simp [Fault.opKindOf]
  · intro cause
    simp [Fault.opKindOf]

theorem claim_C5_witness :
    S3Connection.createBucket (some "connection refused") ⟨[]⟩ "bucket1" =
      .error (Fault.transportFault "connection refused") ∧
    ((Fault.transportFault "connection refused").opKindOf = OpKind.createBucketOp ∨
      (Fault.transportFault "connection refused").opKindOf = OpKind.transportOp) :=
  ⟨rfl, claim_C5.1 (some "connection refused") ⟨[]⟩ "bucket1"
      (Fault.transportFault "connection refused") rfl⟩

/-- C6: every operation taking a bucket, queue, or key name rejects an empty name
as a construction fault before any network I/O (the rejection happens for every
transport outcome `net`); and a listBucket maxKeys that is non-positive is handled
by the one documented policy of this model: it is treated as "use the service
default" (1000), so the call behaves exactly like a call with maxKeys 1000. -/
theorem claim_C6 :
    (∀ (net : Option String) (s : S3State),
       S3Connection.createBucket net s "" =
         .error (Fault.createBucketFault (.construction .emptyName))) ∧
    (∀ (net : Option String) (s : S3State),
       S3Connection.deleteBucket net s "" =
         .error (Fault.deleteBucketFault (.construction .emptyName))) ∧
    (∀ (net : Option String) (s : S3State) (pre marker : String) (mk : Int),
       S3Connection.listBucket4 net s "" pre marker mk =
         .error (Fault.listBucketFault (.construction .emptyName))) ∧
    (∀ (net : Option String) (s : S3State) (pre marker delim : String) (mk : Int),
       S3Connection.listBucket5 net s "" pre marker delim mk =
         .error (Fault.listBucketFault (.construction .emptyName))) ∧
    (∀ (net : Option String) (s : S3State) (k : String) (data : IStream) (ct : String)
       (sz : Int),
       S3Connection.putStream net s "" k data ct sz =
         .error (Fault.putFault (.construction .emptyName))) ∧
    (∀ (net : Option String) (s : S3State) (b : String) (data : IStream) (ct : String)
       (sz : Int),
       S3Connection.putStream net s b "" data ct sz =
         .error (Fault.putFault (.construction .emptyName))) ∧
    (∀ (net : Option String) (s : S3State) (k : String) (data : Bytes) (ct : String)
       (sz : Nat),
       S3Connection.putBuffer net s "" k data ct sz =
         .error (Fault.putFault (.construction .emptyName))) ∧
    (∀ (net : Option String) (s : S3State) (b : String) (data : Bytes) (ct : String)
       (sz : Nat),
       S3Connection.putBuffer net s b "" data ct sz =
         .error (Fault.putFault (.construction .emptyName))) ∧
    (∀ (net : Option String) (s : S3State) (k : String),
       S3Connection.get net s "" k = .error (Fault.getFault (.construction .emptyName))) ∧
    (∀ (net : Option String) (s : S3State) (b : String),
       S3Connection.get net s b "" = .error (Fault.getFault (.construction .emptyName))) ∧
    (∀ (net : Option String) (s : S3State) (k etg : String),
       S3Connection.getIfModified net s "" k etg =
         .error (Fault.getFault (.construction .emptyName))) ∧
    (∀ (net : Option String) (s : S3State) (b etg : String),
       S3Connection.getIfModified net s b "" etg =
         .error (Fault.getFault (.construction .emptyName))) ∧
    (∀ (net : Option String) (s : S3State) (k : String),
       S3Connection.del net s "" k =
         .error (Fault.deleteFault (.construction .emptyName))) ∧
    (∀ (net : Option String) (s : S3State) (b : String),
       S3Connection.del net s b "" =
         .error (Fault.deleteFault (.construction .emptyName))) ∧
    (∀ (net : Option String) (s : S3State) (k : String),
       S3Connection.head net s "" k =
         .error (Fault.headFault (.construction .emptyName))) ∧
    (∀ (net : Option String) (s : S3State) (b : String),
       S3Connection.head net s b "" =
         .error (Fault.headFault (.construction .emptyName))) ∧
    (∀ (net : Option String) (s : SQSState),
       SQSConnection.createQueue net s "" =
         .error (Fault.createQueueFault (.construction .emptyName))) ∧
    (∀ (net : Option String) (s : S3State) (b pre marker : String) (mk : Int), mk ≤ 0 →
       S3Connection.listBucket4 net s b pre marker mk =
         S3Connection.listBucket4 net s b pre marker 1000) ∧
    (∀ (net : Option String) (s : S3State) (b pre marker delim : String) (mk : Int),
       mk ≤ 0 →
       S3Connection.listBucket5 net s b pre marker delim mk =
         S3Connection.listBucket5 net s b pre marker delim 1000) := by
  refine ⟨?_, ?_, ?_, ?_, ?_, ?_, ?_, ?_, ?_, ?_, ?_, ?_, ?_, ?_, ?_, ?_, ?_, ?_, ?_⟩
  · intro net s
    simp [S3Connection.createBucket, facadeOp, nameCheck_of_mem (List.mem_singleton.mpr rfl)]
  · intro net s
    simp [S3Connection.deleteBucket, facadeOp, nameCheck_of_mem (List.mem_singleton.mpr rfl)]
  · intro net s pre marker mk
    simp [S3Connection.listBucket4, facadeOp, nameCheck_of_mem (List.mem_singleton.mpr rfl)]
  · intro net s pre marker delim mk
    simp [S3Connection.listBucket5, facadeOp, nameCheck_of_mem (List.mem_singleton.mpr rfl)]
  · intro net s k data ct sz
    simp [S3Connection.putStream, nameCheck_of_mem (List.mem_cons_self "" [k])]
  · intro net s b data ct sz
    simp [S3Connection.putStream,
      nameCheck_of_mem (List.mem_cons_of_mem b (List.mem_singleton.mpr rfl))]
  · intro net s k data ct sz
    simp [S3Connection.putBuffer, facadeOp, nameCheck_of_mem (List.mem_cons_self "" [k])]
  · intro net s b data ct sz
    simp [S3Connection.putBuffer, facadeOp,
      nameCheck_of_mem (List.mem_cons_of_mem b (List.mem_singleton.mpr rfl))]
  · intro net s k
    simp [S3Connection.get, facadeOp, nameCheck_of_mem (List.mem_cons_self "" [k])]
  · intro net s b
    simp [S3Connection.get, facadeOp,
      nameCheck_of_mem (List.mem_cons_of_mem b (List.mem_singleton.mpr rfl))]
  · intro net s k etg
    simp [S3Connection.getIfModified, facadeOp, nameCheck_of_mem (List.mem_cons_self "" [k])]
  · intro net s b etg
    simp [S3Connection.getIfModified, facadeOp,
      nameCheck_of_mem (List.mem_cons_of_mem b (List.mem_singleton.mpr rfl))]
  · intro net s k
    simp [S3Connection.del, facadeOp, nameCheck_of_mem (List.mem_cons_self "" [k])]
  · intro net s b
    simp [S3Connection.del, facadeOp,
      nameCheck_of_mem (List.mem_cons_of_mem b (List.mem_singleton.mpr rfl))]
  · intro net s k
    simp [S3Connection.head, facadeOp, nameCheck_of_mem (List.mem_cons_self "" [k])]
  · intro net s b
    simp [S3Connection.head, facadeOp,
      nameCheck_of_mem (List.mem_cons_of_mem b (List.mem_singleton.mpr rfl))]
  · intro net s
    simp [SQSConnection.createQueue, facadeOp, nameCheck_of_mem (List.mem_singleton.mpr rfl)]
  · intro net s b pre marker mk hmk
    have hnorm : normMaxKeys mk = normMaxKeys 1000 := by
      simp [normMaxKeys, hmk]
    simp [S3Connection.listBucket4, listStep4, hnorm]
  · intro net s b pre marker delim mk hmk
    have hnorm : normMaxKeys mk = normMaxKeys 1000 := by
      simp [normMaxKeys, hmk]
    simp [S3Connection.listBucket5, listStep5, hnorm]

theorem claim_C6_witness :
    S3Connection.createBucket none ⟨[]⟩ "" =
      .error (Fault.createBucketFault (.construction .emptyName)) ∧
    (0 : Int) ≤ 0 ∧
    S3Connection.listBucket4 none ⟨[("bucket1", [])]⟩ "bucket1" "" "" 0 =
      S3Connection.listBucket4 none ⟨[("bucket1", [])]⟩ "bucket1" "" "" 1000 :=
  ⟨claim_C6.1 none ⟨[]⟩, by decide,
   claim_C6.2.2.2.2.2.2.2.2.2.2.2.2.2.2.2.2.2.1 none ⟨[("bucket1", [])]⟩ "bucket1" "" "" 0
     (by decide)⟩

/-- C3: for the stream overload of put invoked with the -1 size sentinel (valid
names assumed), the body size is determined by seek-to-end-then-rewind, so the call
behaves exactly like a call with the full stream length passed explicitly; and if
the stream is not seekable, the call fails with the fatal construction fault
SizeUnknownError for every transport outcome, i.e. before any network I/O and
without any retry. -/
theorem claim_C3 (net1 net2 : Option String) (s1 s2 : S3State) (b1 k1 b2 k2 : String)
    (d1 d2 : IStream) (ct1 ct2 : String)
    (hn1 : nameCheck [b1, k1] = none) (hn2 : nameCheck [b2, k2] = none)
    (h1 : d1.seekable = false) (h2 : d2.seekable = true) :
    S3Connection.putStream net1 s1 b1 k1 d1 ct1 (-1) =
      .error (Fault.putFault (.construction .sizeUnknownError)) ∧
    S3Connection.putStream net2 s2 b2 k2 d2 ct2 (-1) =
      S3Connection.putStream net2 s2 b2 k2 d2 ct2 ((d2.bytes.length : Nat) : Int) := by
  constructor
  · simp [S3Connection.putStream, hn1, streamSizeCheck, h1]
  · have hne : ((d2.bytes.length : Nat) : Int) ≠ -1 := by omega
    simp [S3Connection.putStream, hn2, streamSizeCheck, h2, hne]

theorem claim_C3_witness :
    nameCheck ["bucket1", "k1"] = none ∧
    (⟨[104, 105], false⟩ : IStream).seekable = false ∧
    (⟨[104, 105], true⟩ : IStream).seekable = true ∧
    S3Connection.putStream none ⟨[("bucket1", [])]⟩ "bucket1" "k1" ⟨[104, 105], false⟩
        "text/plain" (-1) =
      .error (Fault.putFault (.construction .sizeUnknownError)) ∧
    S3Connection.putStream none ⟨[("bucket1", [])]⟩ "bucket1" "k1" ⟨[104, 105], true⟩
        "text/plain" (-1) =
      S3Connection.putStream none ⟨[("bucket1", [])]⟩ "bucket1" "k1" ⟨[104, 105], true⟩
        "text/plain" (((⟨[104, 105], true⟩ : IStream).bytes.length : Nat) : Int) :=
  ⟨rfl, rfl, rfl,
   (claim_C3 none none ⟨[("bucket1", [])]⟩ ⟨[("bucket1", [])]⟩ "bucket1" "k1" "bucket1"
      "k1" ⟨[104, 105], false⟩ ⟨[104, 105], true⟩ "text/plain" "text/plain" rfl rfl rfl
      rfl).1,
   (claim_C3 none none ⟨[("bucket1", [])]⟩ ⟨[("bucket1", [])]⟩ "bucket1" "k1" "bucket1"
      "k1" ⟨[104, 105], false⟩ ⟨[104, 105], true⟩ "text/plain" "text/plain" rfl rfl rfl
      rfl).2⟩

/-- C10: for every bucket, key, content type and size, the stream overload of put
with the bytes supplied by an istream and the size passed explicitly stores the same
object and returns the same result as the buffer overload of put on the same bytes
with the same size, whatever the stream's seekability and the transport outcome; in
this model the buffer overload takes its size argument as a required natural number
with no sentinel branch. -/
theorem claim_C10 (net : Option String) (s : S3State) (b k : String) (data : Bytes)
    (seek : Bool) (ct : String) (n : Nat) :
    S3Connection.putStream net s b k ⟨data, seek⟩ ct ((n : Nat) : Int) =
      S3Connection.putBuffer net s b k data ct n := by
  have hne : ((n : Nat) : Int) ≠ -1 := by omega
  cases hnc : nameCheck [b, k] with
  | some c => simp [S3Connection.putStream, S3Connection.putBuffer, facadeOp, hnc]
  | none =>
    cases net with
    | some e =>
      simp [S3Connection.putStream, S3Connection.putBuffer, facadeOp, hnc,
        streamSizeCheck, hne]
    | none =>
      simp [S3Connection.putStream, S3Connection.putBuffer, facadeOp, hnc,
        streamSizeCheck, hne]

/-- C8: the Signer's sign(credentials, method, resourcePath, headers, timestamp) is
a deterministic pure function: on any well-formed resource path it cannot fail and
returns exactly the signature token computed by the pure function signatureToken of
precisely those five inputs, so two calls with identical inputs return the identical
token and no hidden state or cross-request cache is involved. -/
theorem claim_C8 (c : Credentials) (method resourcePath : String)
    (hs : List (String × String)) (timestamp : String)
    (hwf : wellFormedPath resourcePath = true) :
    sign c method resourcePath hs timestamp =
      .ok (signatureToken c method resourcePath hs timestamp) := by
  simp [sign, hwf]

theorem claim_C8_witness :
    wellFormedPath "/bucket1/k1" = true ∧
    sign ⟨"AKID", "SECRET"⟩ "GET" "/bucket1/k1" [("x-amz-date", "20081022")] "20081022" =
      .ok (signatureToken ⟨"AKID", "SECRET"⟩ "GET" "/bucket1/k1"
        [("x-amz-date", "20081022")] "20081022") :=
  ⟨rfl, claim_C8 ⟨"AKID", "SECRET"⟩ "GET" "/bucket1/k1" [("x-amz-date", "20081022")]
    "20081022" rfl⟩

/- Association-list lemmas about the stored state. -/

theorem find?_update_list (b : String) (objs2 : List (String × Object))
    (l : List (String × List (String × Object)))
    (h : (l.find? (fun pr => decide (pr.1 = b))).isSome = true) :
    (l.map (fun pr => if pr.1 = b then (b, objs2) else pr)).find?
        (fun pr => decide (pr.1 = b)) = some (b, objs2) := by
  induction l with
  | nil => simp at h
  | cons p rest ih =>
    by_cases hpb : p.1 = b
    · simp [hpb]
    · rw [List.find?_cons_of_neg _ (by simp [hpb])] at h
      simp only [List.map_cons, if_neg hpb]
      rw [List.find?_cons_of_neg _ (by simp [hpb])]
      exact ih h

theorem findBucket_update {s : S3State} {b : String} {objs : List (String × Object)}
    (objs2 : List (String × Object)) (h : s.findBucket b = some objs) :
    (s.updateBucket b objs2).findBucket b = some objs2 := by
  have hsome : (s.buckets.find? (fun pr => decide (pr.1 = b))).isSome = true := by
    unfold S3State.findBucket at h
    cases hf : s.buckets.find? (fun pr => decide (pr.1 = b)) with
    | none => rw [hf] at h; simp at h
    | some pr => simp
  unfold S3State.findBucket S3State.updateBucket
  rw [find?_update_list b objs2 s.buckets hsome]
  rfl

theorem lookup_insert (objs : List (String × Object)) (k : String) (o : Object) :
    lookupKey (insertObject objs k o) k = some o := by
  unfold lookupKey insertObject
  induction objs with
  | nil => simp
  | cons p rest ih =>
    by_cases hpk : p.1 = k
    · rw [List.filter_cons, if_neg (by simp [hpk])]
      exact ih
    · rw [List.filter_cons, if_pos (by simp [hpk]), List.cons_append,
        List.find?_cons_of_neg _ (by simp [hpk])]
      exact ih

theorem lookup_remove (objs : List (String × Object)) (k : String) :
    lookupKey (removeObject objs k) k = none := by
  unfold lookupKey removeObject
  have hnone : (objs.filter (fun pr => !decide (pr.1 = k))).find?
      (fun pr => decide (pr.1 = k)) = none := by
    rw [List.find?_eq_none]
    intro x hx
    have hmem := (List.mem_filter.mp hx).2
    simp at hmem ⊢
    exact hmem
  rw [hnone]
  rfl

/-- C1: for every (bucket, key, content) triple, a successful put of content under
(bucket, key) followed by a get of (bucket, key) on the resulting state with no
intervening writes returns a body byte-identical to content, with the ETag equal to
the content fingerprint; since get is a pure function of the unchanged state, every
repeated get returns this same response, so the ETag is identical across repeated
gets absent intervening writes. -/
theorem claim_C1 (s : S3State) (b k : String) (content : Bytes) (ct : String)
    (s' : S3State) (resp : PutResponse)
    (h : S3Connection.putStream .none s b k ⟨content, true⟩ ct (-1) = .ok (s', resp)) :
    S3Connection.get .none s' b k =
      .ok ⟨defaultRequestId, content, ct, etagOf content⟩ := by
  cases hnc : nameCheck [b, k] with
  | some c => simp [S3Connection.putStream, hnc] at h
  | none =>
    have hsz : streamSizeCheck ⟨content, true⟩ (-1) = .ok content.length := by
      simp [streamSizeCheck]
    cases hfb : s.findBucket b with
    | none =>
      simp [S3Connection.putStream, hnc, hsz, putServiceStep, hfb, Except.mapError] at h
    | some objs =>
      simp [S3Connection.putStream, hnc, hsz, putServiceStep, hfb, Except.mapError] at h
      obtain ⟨hs', hresp⟩ := h
      subst hs'
      simp [S3Connection.get, facadeOp, hnc, getStep,
        findBucket_update _ hfb, lookup_insert, Except.mapError]

theorem claim_C1_witness :
    S3Connection.putStream .none ⟨[("bucket1", [])]⟩ "bucket1" "k1" ⟨[104, 105], true⟩
        "text/plain" (-1) =
      .ok (⟨[("bucket1", [("k1", ⟨[104, 105], "text/plain"⟩)])]⟩,
           ⟨defaultRequestId, etagOf [104, 105]⟩) ∧
    S3Connection.get .none ⟨[("bucket1", [("k1", ⟨[104, 105], "text/plain"⟩)])]⟩
        "bucket1" "k1" =
      .ok ⟨defaultRequestId, [104, 105], "text/plain", etagOf [104, 105]⟩ :=
  ⟨rfl, claim_C1 ⟨[("bucket1", [])]⟩ "bucket1" "k1" [104, 105] "text/plain" _ _ rfl⟩

/-- C2: for every (bucket, key), calling the conditional get overload with the ETag
returned by a prior get on unchanged content yields the explicit "not modified"
outcome: it is an ok result (no get fault is raised), it is distinguishable from an
ordinary success by the isNotModified discriminator, and it carries no body. -/
theorem claim_C2 (s : S3State) (b k : String) (r : GetResponse)
    (h : S3Connection.get .none s b k = .ok r) :
    S3Connection.getIfModified .none s b k r.etag = .ok (GetOutcome.notModified r.etag) ∧
    (GetOutcome.notModified r.etag).isNotModified = true ∧
    (GetOutcome.notModified r.etag).bodyOf = none := by
  refine ⟨?_, rfl, rfl⟩
  cases hnc : nameCheck [b, k] with
  | some c => simp [S3Connection.get, facadeOp, hnc] at h
  | none =>
    cases hfb : s.findBucket b with
    | none => simp [S3Connection.get, facadeOp, hnc, getStep, hfb, Except.mapError] at h
    | some objs =>
      cases hlk : lookupKey objs k with
      | none =>
        simp [S3Connection.get, facadeOp, hnc, getStep, hfb, hlk, Except.mapError] at h
      | some o =>
        simp [S3Connection.get, facadeOp, hnc, getStep, hfb, hlk, Except.mapError] at h
        subst h
        simp [S3Connection.getIfModified, facadeOp, hnc, getCondStep, hfb, hlk,
          Except.mapError]

theorem claim_C2_witness :
    S3Connection.get .none ⟨[("bucket1", [("k1", ⟨[104, 105], "text/plain"⟩)])]⟩
        "bucket1" "k1" =
      .ok ⟨defaultRequestId, [104, 105], "text/plain", etagOf [104, 105]⟩ ∧
    S3Connection.getIfModified .none ⟨[("bucket1", [("k1", ⟨[104, 105], "text/plain"⟩)])]⟩
        "bucket1" "k1" (etagOf [104, 105]) =
      .ok (GetOutcome.notModified (etagOf [104, 105])) ∧
    (GetOutcome.notModified (etagOf [104, 105])).isNotModified = true ∧
    (GetOutcome.notModified (etagOf [104, 105])).bodyOf = none :=
  ⟨rfl, claim_C2 ⟨[("bucket1", [("k1", ⟨[104, 105], "text/plain"⟩)])]⟩ "bucket1" "k1"
    ⟨defaultRequestId, [104, 105], "text/plain", etagOf [104, 105]⟩ rfl⟩

/-- C7: for every (bucket, key), a successful del of (bucket, key) followed by head
on the same (bucket, key) in the resulting state fails with the not-found service
fault (NoSuchKey) typed as a head fault; and head never returns a body: every
successful head response consists of exactly the metadata of the object as reported
by get (byte count, content type, ETag), with no data bytes (HeadResponse carries no
body field). -/
theorem claim_C7 (s : S3State) (b k : String) (s' : S3State) (dr : DeleteResponse)
    (s2 : S3State) (b2 k2 : String) (g : GetResponse)
    (hdel : S3Connection.del .none s b k = .ok (s', dr))
    (hget : S3Connection.get .none s2 b2 k2 = .ok g) :
    S3Connection.head .none s' b k = .error (Fault.headFault (.service noSuchKeyError)) ∧
    S3Connection.head .none s2 b2 k2 =
      .ok ⟨defaultRequestId, g.bytes.length, g.contentType, g.etag⟩ := by
  constructor
  · cases hnc : nameCheck [b, k] with
    | some c => simp [S3Connection.del, facadeOp, hnc] at hdel
    | none =>
      cases hfb : s.findBucket b with
      | none => simp [S3Connection.del, facadeOp, hnc, delStep, hfb, Except.mapError] at hdel
      | some objs =>
        simp [S3Connection.del, facadeOp, hnc, delStep, hfb, Except.mapError] at hdel
        obtain ⟨hs', hdr⟩ := hdel
        subst hs'
        simp [S3Connection.head, facadeOp, hnc, headStep,
          findBucket_update _ hfb, lookup_remove, Except.mapError]
  · cases hnc : nameCheck [b2, k2] with
    | some c => simp [S3Connection.get, facadeOp, hnc] at hget
    | none =>
      cases hfb : s2.findBucket b2 with
      | none => simp [S3Connection.get, facadeOp, hnc, getStep, hfb, Except.mapError] at hget
      | some objs =>
        cases hlk : lookupKey objs k2 with
        | none =>
          simp [S3Connection.get, facadeOp, hnc, getStep, hfb, hlk, Except.mapError] at hget
        | some o =>
          simp [S3Connection.get, facadeOp, hnc, getStep, hfb, hlk, Except.mapError] at hget
          subst hget
          simp [S3Connection.head, facadeOp, hnc, headStep, hfb, hlk, Except.mapError]

theorem claim_C7_witness :
    S3Connection.del .none ⟨[("bucket1", [("k1", ⟨[104, 105], "text/plain"⟩)])]⟩
        "bucket1" "k1" =
      .ok (⟨[("bucket1", [])]⟩, ⟨defaultRequestId⟩) ∧
    S3Connection.get .none ⟨[("bucket1", [("k1", ⟨[104, 105], "text/plain"⟩)])]⟩
        "bucket1" "k1" =
      .ok ⟨defaultRequestId, [104, 105], "text/plain", etagOf [104, 105]⟩ ∧
    S3Connection.head .none ⟨[("bucket1", [])]⟩ "bucket1" "k1" =
      .error (Fault.headFault (.service noSuchKeyError)) ∧
    S3Connection.head .none ⟨[("bucket1", [("k1", ⟨[104, 105], "text/plain"⟩)])]⟩
        "bucket1" "k1" =
      .ok ⟨defaultRequestId, 2, "text/plain", etagOf [104, 105]⟩ :=
  ⟨rfl, rfl,
   (claim_C7 ⟨[("bucket1", [("k1", ⟨[104, 105], "text/plain"⟩)])]⟩ "bucket1" "k1"
      ⟨[("bucket1", [])]⟩ ⟨defaultRequestId⟩
      ⟨[("bucket1", [("k1", ⟨[104, 105], "text/plain"⟩)])]⟩ "bucket1" "k1"
      ⟨defaultRequestId, [104, 105], "text/plain", etagOf [104, 105]⟩ rfl rfl).1,
   (claim_C7 ⟨[("bucket1", [("k1", ⟨[104, 105], "text/plain"⟩)])]⟩ "bucket1" "k1"
      ⟨[("bucket1", [])]⟩ ⟨defaultRequestId⟩
      ⟨[("bucket1", [("k1", ⟨[104, 105], "text/plain"⟩)])]⟩ "bucket1" "k1"
      ⟨defaultRequestId, [104, 105], "text/plain", etagOf [104, 105]⟩ rfl rfl).2⟩

/- Order lemmas for the lexicographic key order. -/

theorem lexLt_trans : ∀ (as bs cs : List Char),
    lexLt as bs = true → lexLt bs cs = true → lexLt as cs = true := by
  intro as
  induction as with
  | nil =>
    intro bs cs hab hbc
    cases bs with
    | nil => simp [lexLt] at hab
    | cons y ys =>
      cases cs with
      | nil => simp [lexLt] at hbc
      | cons z zs => simp [lexLt]
  | cons x xs ih =>
    intro bs cs hab hbc
    cases bs with
    | nil => simp [lexLt] at hab
    | cons y ys =>
      cases cs with
      | nil => simp [lexLt] at hbc
      | cons z zs =>
        simp only [lexLt] at hab hbc ⊢
        by_cases hxy : x.toNat < y.toNat <;> by_cases hyz : y.toNat < z.toNat
        · rw [if_pos (by omega)]
        · rw [if_neg hyz] at hbc
          by_cases hzy : z.toNat < y.toNat
          · rw [if_pos hzy] at hbc
            exact absurd hbc (by simp)
          · rw [if_pos (by omega)]
        · rw [if_neg hxy] at hab
          by_cases hyx : y.toNat < x.toNat
          · rw [if_pos hyx] at hab
            exact absurd hab (by simp)
          · rw [if_pos (by omega)]
        · rw [if_neg hxy] at hab
          rw [if_neg hyz] at hbc
          by_cases hyx : y.toNat < x.toNat
          · rw [if_pos hyx] at hab
            exact absurd hab (by simp)
          · by_cases hzy : z.toNat < y.toNat
            · rw [if_pos hzy] at hbc
              exact absurd hbc (by simp)
            · rw [if_neg hyx] at hab
              rw [if_neg hzy] at hbc
              rw [if_neg (by omega), if_neg (by omega)]
              exact ih ys zs hab hbc

theorem lexLt_irrefl : ∀ (as : List Char), lexLt as as = false := by
  intro as
  induction as with
  | nil => rfl
  | cons x xs ih => simp [lexLt, ih]

theorem keyLt_trans {a b c : String} (hab : keyLt a b = true)
    (hbc : keyLt b c = true) : keyLt a c = true :=
  lexLt_trans _ _ _ hab hbc

theorem keyLt_irrefl (a : String) : keyLt a a = false :=
  lexLt_irrefl a.data

theorem keyLt_asymm {a b : String} (hab : keyLt a b = true) : keyLt b a = false := by
  by_contra hc
  rw [Bool.not_eq_false] at hc
  have haa : keyLt a a = true := keyLt_trans hab hc
  rw [keyLt_irrefl] at haa
  exact absurd haa (by simp)

theorem mem_getLastD : ∀ (l : List String) (d : String), l ≠ [] → l.getLastD d ∈ l := by
  intro l
  induction l with
  | nil => intro d h; exact absurd rfl h
  | cons a t ih =>
    intro d h
    rw [List.getLastD_cons]
    cases t with
    | nil => simp [List.getLastD]
    | cons b t2 => exact List.mem_cons_of_mem a (ih a (by simp))

theorem lastD_not_lt : ∀ (l : List String) (d : String),
    List.Pairwise (fun a b => keyLt a b = true) l →
    ∀ x ∈ l, keyLt (l.getLastD d) x = false := by
  intro l
  induction l with
  | nil => intro d hp x hx; simp at hx
  | cons a t ih =>
    intro d hp x hx
    rw [List.getLastD_cons]
    rw [List.pairwise_cons] at hp
    obtain ⟨ha, hp2⟩ := hp
    rcases List.mem_cons.mp hx with hxa | hxt
    · subst hxa
      cases t with
      | nil => simp [List.getLastD, keyLt_irrefl]
      | cons b t2 =>
        have hmem := mem_getLastD (b :: t2) x (by simp)
        exact keyLt_asymm (ha _ hmem)
    · cases t with
      | nil => simp at hxt
      | cons b t2 => exact ih a hp2 x hxt

/- The pagination equivalence (spec section 4.5 and the testable property on
listBucket pagination). -/

theorem filter_split_drop (L : List String) (n : Nat) (m2 : String)
    (hA : ∀ x ∈ L.take n, keyLt m2 x = false)
    (hB : ∀ x ∈ L.drop n, keyLt m2 x = true) :
    L.filter (fun k => keyLt m2 k) = L.drop n := by
  conv_lhs => rw [← List.take_append_drop n L]
  rw [List.filter_append]
  rw [List.filter_eq_nil_iff.mpr (fun a ha => by rw [hA a ha]; simp)]
  rw [List.filter_eq_self.mpr hB]
  simp

theorem page_advance (keys : List String) (pre marker : String) (n : Nat)
    (hs : List.Pairwise (fun a b => keyLt a b = true) keys) (h1 : 1 ≤ n)
    (htr : n < (filterKeys keys pre marker).length) :
    filterKeys keys pre (((filterKeys keys pre marker).take n).getLastD "") =
      (filterKeys keys pre marker).drop n := by
  have hFs : List.Pairwise (fun a b => keyLt a b = true) (filterKeys keys pre marker) :=
    List.Pairwise.filter _ hs
  have htake_len : ((filterKeys keys pre marker).take n).length = n := by
    rw [List.length_take]
    omega
  have htne : (filterKeys keys pre marker).take n ≠ [] := by
    intro hnil
    rw [hnil] at htake_len
    simp at htake_len
    omega
  have hm_mem_take : ((filterKeys keys pre marker).take n).getLastD "" ∈
      (filterKeys keys pre marker).take n := mem_getLastD _ _ htne
  have hm_mem : ((filterKeys keys pre marker).take n).getLastD "" ∈
      filterKeys keys pre marker := List.mem_of_mem_take hm_mem_take
  have hm_pred : (isPre pre (((filterKeys keys pre marker).take n).getLastD "") &&
      keyLt marker (((filterKeys keys pre marker).take n).getLastD "")) = true := by
    unfold filterKeys at hm_mem
    exact (List.mem_filter.mp hm_mem).2
  have hmarker_lt : keyLt marker (((filterKeys keys pre marker).take n).getLastD "") =
      true := by
    have hsplit := hm_pred
    simp only [Bool.and_eq_true] at hsplit
    exact hsplit.2
  have hstep1 : ∀ m2 : String, keyLt marker m2 = true →
      filterKeys keys pre m2 =
        (filterKeys keys pre marker).filter (fun k => keyLt m2 k) := by
    intro m2 hm2
    unfold filterKeys
    rw [List.filter_filter]
    apply List.filter_congr
    intro k hk
    cases hlt : keyLt m2 k with
    | false => simp [hlt]
    | true =>
      have hmk : keyLt marker k = true := keyLt_trans hm2 hlt
      simp [hlt, hmk]
  have hpt : List.Pairwise (fun a b => keyLt a b = true)
      ((filterKeys keys pre marker).take n) :=
    List.Pairwise.sublist (List.take_sublist n _) hFs
  have hA : ∀ x ∈ (filterKeys keys pre marker).take n,
      keyLt (((filterKeys keys pre marker).take n).getLastD "") x = false :=
    lastD_not_lt _ "" hpt
  have hpair : List.Pairwise (fun a b => keyLt a b = true)
      ((filterKeys keys pre marker).take n ++ (filterKeys keys pre marker).drop n) := by
    rw [List.take_append_drop]
    exact hFs
  have hB : ∀ x ∈ (filterKeys keys pre marker).drop n,
      keyLt (((filterKeys keys pre marker).take n).getLastD "") x = true :=
    fun x hx => (List.pairwise_append.mp hpair).2.2 _ hm_mem_take x hx
  rw [hstep1 _ hmarker_lt, filter_split_drop _ n _ hA hB]

theorem paginateAux_eq (keys : List String) (pre : String) (maxKeys : Nat)
    (h1 : 1 ≤ maxKeys) (hs : List.Pairwise (fun a b => keyLt a b = true) keys) :
    ∀ (fuel : Nat) (marker : String),
      (filterKeys keys pre marker).length ≤ fuel →
      paginateAux keys pre maxKeys fuel marker = filterKeys keys pre marker := by
  intro fuel
  induction fuel with
  | zero =>
    intro marker hlen
    have hnil : filterKeys keys pre marker = [] :=
      List.eq_nil_of_length_eq_zero (Nat.le_zero.mp hlen)
    simp [paginateAux, hnil]
  | succ fuel ih =>
    intro marker hlen
    by_cases htr : maxKeys < (filterKeys keys pre marker).length
    · have hadv := page_advance keys pre marker maxKeys hs h1 htr
      have hlen2 : (filterKeys keys pre
          (((filterKeys keys pre marker).take maxKeys).getLastD "")).length ≤ fuel := by
        rw [hadv, List.length_drop]
        omega
      have hrec := ih _ hlen2
      simp only [paginateAux, pageEntries]
      rw [if_pos (by simpa [pageIsTruncated] using htr)]
      rw [hrec, hadv]
      exact List.take_append_drop _ _
    · have hle : (filterKeys keys pre marker).length ≤ maxKeys := by omega
      simp only [paginateAux, pageEntries]
      rw [if_neg (by simpa [pageIsTruncated] using htr)]
      exact List.take_of_length_le hle

/-- C4: for every prefix and every maxKeys at least 1, over any strictly sorted key
sequence of a bucket (which the service listing produces), concatenating all pages
of listBucket pagination -- starting from the empty marker, advancing the marker to
the last returned key of each truncated page, stopping when the truncation flag is
clear -- yields the same keys, in the same order, as the single unpaginated listing
of that bucket (all matching keys at once). -/
theorem claim_C4 (keys : List String) (pre : String) (maxKeys : Nat)
    (h1 : 1 ≤ maxKeys) (hs : List.Pairwise (fun a b => keyLt a b = true) keys) :
    paginateAll keys pre maxKeys = filterKeys keys pre "" :=
  paginateAux_eq keys pre maxKeys h1 hs (keys.length + 1) ""
    (le_trans (List.length_filter_le _ _) (Nat.le_succ _))

theorem claim_C4_witness :
    1 ≤ 1 ∧
    List.Pairwise (fun a b => keyLt a b = true) ["a", "ab", "b"] ∧
    paginateAll ["a", "ab", "b"] "" 1 = filterKeys ["a", "ab", "b"] "" "" :=
  ⟨Nat.le_refl 1, by decide,
   claim_C4 ["a", "ab", "b"] "" 1 (Nat.le_refl 1) (by decide)⟩

/- The two listBucket overloads (with and without delimiter). -/

theorem buildPageAux_empty_delim (pre : String) :
    ∀ (keys : List String) (n : Nat) (lastRoll : Option String),
      buildPageAux pre "" keys n lastRoll =
        (keys.take n, [], decide (n < keys.length)) := by
  intro keys
  induction keys with
  | nil =>
    intro n lastRoll
    simp [buildPageAux]
  | cons k rest ih =>
    intro n lastRoll
    have hroll : rollupOf pre "" k = none := rfl
    cases n with
    | zero => simp [buildPageAux, hroll]
    | succ m =>
      simp [buildPageAux, hroll, ih m none, Nat.succ_lt_succ_iff]

theorem listStep5_empty_delim (s : S3State) (b pre marker : String) (mk : Int) :
    listStep5 s b pre marker "" mk = listStep4 s b pre marker mk := by
  unfold listStep5 listStep4
  cases hfb : s.findBucket b with
  | none => rfl
  | some objs =>
    simp [buildPageAux_empty_delim, pageEntries, pageIsTruncated]

/-- C9: for every (bucket, prefix, marker, maxKeys) and every transport outcome,
the four-argument listBucket overload (without a delimiter) returns exactly what
the five-argument overload returns when invoked with the empty delimiter -- same
entries in the same order, same marker, next-marker and truncation fields -- and
the four-argument overload never produces common-prefix rollups in its result. -/
theorem claim_C9 (net : Option String) (s : S3State) (b pre marker : String) (mk : Int) :
    S3Connection.listBucket4 net s b pre marker mk =
      S3Connection.listBucket5 net s b pre marker "" mk ∧
    (S3Connection.listBucket4 net s b pre marker mk).map
        ListBucketResponse.commonPrefixes =
      (S3Connection.listBucket4 net s b pre marker mk).map
        (fun _ => ([] : List String)) := by
  constructor
  · unfold S3Connection.listBucket4 S3Connection.listBucket5
    rw [listStep5_empty_delim]
  · cases hnc : nameCheck [b] with
    | some c => simp [S3Connection.listBucket4, facadeOp, hnc, Except.map]
    | none =>
      cases net with
      | some e => simp [S3Connection.listBucket4, facadeOp, hnc, Except.map]
      | none =>
        cases hfb : s.findBucket b with
        | none =>
          simp [S3Connection.listBucket4, facadeOp, hnc, listStep4, hfb, Except.mapError,
            Except.map]
        | some objs =>
          simp [S3Connection.listBucket4, facadeOp, hnc, listStep4, hfb, Except.mapError,
            Except.map]
